import Mathlib

/-!
Formal model of the field readers of catalyst/data/reader.py and of their
composition, with theorems checking the documented behaviour.

Modelling conventions:
- A Python record (row) and an output mapping are association lists from
  string keys to dynamic values, with the update semantics of Python dicts
  (an existing key keeps its position, a fresh key is appended).
- Python dynamic values are the inductive type Value: the null object None,
  integers, finite floats as rationals, the float NaN, strings, numpy float
  vectors, and opaque image buffers.
- Exceptions are modelled with Except over the error type PyErr; a raised
  error aborts the computation, so an error result carries no partial
  output mapping by construction.
- The numeric cast dtype(v) of ScalarReader follows Python and numpy
  semantics: int(None) and float(None) raise TypeError, numpy.float32(None)
  yields NaN (numpy casts the None object to NaN for float dtypes),
  int(nan) raises ValueError, and numeric strings parse.
- Array indexing one_hot[scalar] follows numpy (from version 1.12 on):
  only integer scalars are valid indices, a float index raises IndexError,
  a negative integer index counts from the end, and an out-of-range index
  raises IndexError.
- The image decode collaborator read_image is an opaque environment
  function supplied by the caller of the model.
-/

set_option autoImplicit false

namespace CatalystReader

/-- Python errors that the reader code can raise. -/
inductive PyErr where
  /-- KeyError on a missing mapping key: the missing-field error. -/
  | keyError (k : String)
  /-- TypeError: the type-conversion error of a cast applied to None
      or to a non-numeric object. -/
  | typeError
  /-- ValueError: cast of NaN to int, or an unparseable numeric string. -/
  | valueError
  /-- IndexError: invalid or out-of-range array index. -/
  | indexError
  /-- An error raised by an external collaborator (image decode, encode). -/
  | external (msg : String)
  deriving Repr, DecidableEq

/-- Dynamic Python values flowing through the readers. -/
inductive Value where
  /-- The Python None object. -/
  | none
  /-- A Python integer. -/
  | int (n : Int)
  /-- A finite Python or numpy float, modelled as a rational. -/
  | float (q : ℚ)
  /-- The float NaN, the result of casting None with a numpy float dtype. -/
  | nan
  /-- A Python string. -/
  | str (s : String)
  /-- A numpy float vector, as produced by the one-hot encoding. -/
  | vec (xs : List ℚ)
  /-- An opaque decoded image buffer. -/
  | img (data : String)
  deriving Repr, DecidableEq

/-- A record (annotation row) or an output mapping: an association list
    of string keys and dynamic values, in Python dict order. -/
abbrev Dict := List (String × Value)

/-- Lookup of a key: the value of the first matching entry. -/
def dictGet? : Dict → String → Option Value
  | [], _ => Option.none
  | (k1, v) :: rest, k => if k1 = k then some v else dictGet? rest k

/-- Subscript lookup row[k]: raises KeyError when the key is missing. -/
def dictGet (d : Dict) (k : String) : Except PyErr Value :=
  match dictGet? d k with
  | some v => Except.ok v
  | Option.none => Except.error (PyErr.keyError k)

/-- The method row.get(k, dflt): the stored value when the key is present
    (even when that stored value is None), otherwise the default. -/
def dictGetD (d : Dict) (k : String) (dflt : Value) : Value :=
  (dictGet? d k).getD dflt

/-- Python dict update d[k] = v: an existing key keeps its position and
    takes the new value, a fresh key is appended at the end. -/
def dictSet : Dict → String → Value → Dict
  | [], k, v => [(k, v)]
  | (k1, v1) :: rest, k, v =>
      if k1 = k then (k, v) :: rest else (k1, v1) :: dictSet rest k v

/-- The dict merge of the source, written there as a double-splat of the
    accumulator and the freshly produced mapping: every entry of the second
    dict is written into the first in order, so later entries win. -/
def dictMerge (a : Dict) : Dict → Dict
  | [] => a
  | (k, v) :: rest => dictMerge (dictSet a k v) rest

/-- The numeric dtype configured on a ScalarReader: the Python types int
    and float, or the numpy type float32 (the default of the source). -/
inductive DType where
  | int
  | float
  | float32
  deriving Repr, DecidableEq

/-- Python int() truncation toward zero of a rational. -/
def pyTrunc (q : ℚ) : Int :=
  q.num.tdiv (q.den : Int)

/-- The cast dtype(v) on line 80 of the source. int(None) and float(None)
    raise TypeError; numpy.float32(None) yields NaN, because numpy casts
    the None object to NaN for float dtypes; int(nan) raises ValueError;
    numeric strings parse (non-numeric ones raise ValueError); casting a
    vector or an image buffer raises TypeError. -/
def coerce : DType → Value → Except PyErr Value
  | DType.int, Value.int n => Except.ok (Value.int n)
  | DType.int, Value.float q => Except.ok (Value.int (pyTrunc q))
  | DType.int, Value.nan => Except.error PyErr.valueError
  | DType.int, Value.none => Except.error PyErr.typeError
  | DType.int, Value.str s =>
      match s.toInt? with
      | some n => Except.ok (Value.int n)
      | Option.none => Except.error PyErr.valueError
  | DType.int, Value.vec _ => Except.error PyErr.typeError
  | DType.int, Value.img _ => Except.error PyErr.typeError
  | DType.float, Value.int n => Except.ok (Value.float (n : ℚ))
  | DType.float, Value.float q => Except.ok (Value.float q)
  | DType.float, Value.nan => Except.ok Value.nan
  | DType.float, Value.none => Except.error PyErr.typeError
  | DType.float, Value.str s =>
      match s.toInt? with
      | some n => Except.ok (Value.float (n : ℚ))
      | Option.none => Except.error PyErr.valueError
  | DType.float, Value.vec _ => Except.error PyErr.typeError
  | DType.float, Value.img _ => Except.error PyErr.typeError
  | DType.float32, Value.int n => Except.ok (Value.float (n : ℚ))
  | DType.float32, Value.float q => Except.ok (Value.float q)
  | DType.float32, Value.nan => Except.ok Value.nan
  | DType.float32, Value.none => Except.ok Value.nan
  | DType.float32, Value.str s =>
      match s.toInt? with
      | some n => Except.ok (Value.float (n : ℚ))
      | Option.none => Except.error PyErr.valueError
  | DType.float32, Value.vec _ => Except.error PyErr.typeError
  | DType.float32, Value.img _ => Except.error PyErr.typeError

/-- The guard `scalar is not None` of line 82 of the source. -/
def isNotNone : Value → Bool
  | Value.none => false
  | _ => true

/-- The guard `scalar >= 0` of line 82 of the source, evaluated on the
    outputs of the numeric cast: NaN compares false against zero. The
    guard is short-circuited after `scalar is not None`, so it is never
    reached on None; non-numeric values cannot reach it either. -/
def pyGE0 : Value → Bool
  | Value.int n => decide (0 ≤ n)
  | Value.float q => decide (0 ≤ q)
  | _ => false

/-- The zero vector of length n with entry i set to one, as built by
    lines 83 and 84 of the source with numpy.zeros and an index write. -/
def oneHot (n : Nat) (i : Nat) : List ℚ :=
  (List.range n).map (fun j => if j = i then (1 : ℚ) else 0)

/-- The numpy index write one_hot[scalar] = 1.0 on a zero vector of
    length n. From numpy 1.12 on, only integer scalars are valid indices
    (a float index raises IndexError); a negative integer counts from the
    end; an out-of-range index raises IndexError. -/
def npSetIndex (n : Nat) (idx : Value) : Except PyErr (List ℚ) :=
  match idx with
  | Value.int i =>
      if 0 ≤ i then
        if i < (n : Int) then Except.ok (oneHot n i.toNat)
        else Except.error PyErr.indexError
      else
        if 0 ≤ (n : Int) + i then Except.ok (oneHot n ((n : Int) + i).toNat)
        else Except.error PyErr.indexError
  | _ => Except.error PyErr.indexError

/-- Lines 80 to 85 of the source after the row lookup: cast the looked-up
    value with the configured dtype, then, when a one-hot class count is
    configured and the scalar is neither None nor negative, replace the
    scalar by the one-hot vector. -/
def scalarValue (dt : DType) (ohc : Option Nat) (v : Value) : Except PyErr Value :=
  match coerce dt v with
  | Except.error e => Except.error e
  | Except.ok scalar =>
      match ohc with
      | some n =>
          if isNotNone scalar && pyGE0 scalar then
            match npSetIndex n scalar with
            | Except.error e => Except.error e
            | Except.ok oh => Except.ok (Value.vec oh)
          else Except.ok scalar
      | Option.none => Except.ok scalar

/-- The environment holding the external image decode collaborator
    read_image of catalyst/data/functional.py, outside this fragment. -/
structure Env where
  read_image : String → Option String → Bool → Except PyErr Value

/-- Python str() on a dynamic value, applied by ImageReader to the looked
    up value before handing it to the collaborator. Only the string case
    matters to the model; the collaborator is opaque. -/
def pyStr : Value → String
  | Value.str s => s
  | Value.int n => toString n
  | Value.float q => toString q
  | Value.nan => "nan"
  | Value.none => "None"
  | Value.vec _ => "array"
  | Value.img s => s

/-- The three leaf readers with their construction-time configuration:
    ImageReader, ScalarReader (dtype, default value, optional one-hot
    class count) and TextReader (encode function, identity by default). -/
inductive Reader where
  | image (row_key : String) (dict_key : String)
      (datapath : Option String) (grayscale : Bool)
  | scalar (row_key : String) (dict_key : String)
      (dtype : DType) (default_value : Value) (one_hot_classes : Option Nat)
  | text (row_key : String) (dict_key : String)
      (encode_fn : Value → Except PyErr Value)

/-- The call methods of the three readers, translated statement by
    statement from the source. ImageReader: subscript lookup, str, the
    decode collaborator, a fresh one-entry result. ScalarReader: lookup
    with default, cast, optional one-hot, a fresh one-entry result.
    TextReader: subscript lookup, encode function, a fresh one-entry
    result. -/
def Reader.call (env : Env) : Reader → Dict → Except PyErr Dict
  | Reader.image rk dk dp gs, row =>
      match dictGet row rk with
      | Except.error e => Except.error e
      | Except.ok v =>
          match env.read_image (pyStr v) dp gs with
          | Except.error e => Except.error e
          | Except.ok im => Except.ok [(dk, im)]
  | Reader.scalar rk dk dt dv ohc, row =>
      match scalarValue dt ohc (dictGetD row rk dv) with
      | Except.error e => Except.error e
      | Except.ok s => Except.ok [(dk, s)]
  | Reader.text rk dk enc, row =>
      match dictGet row rk with
      | Except.error e => Except.error e
      | Except.ok t =>
          match enc t with
          | Except.error e => Except.error e
          | Except.ok t2 => Except.ok [(dk, t2)]

/-- The identity encode function, the constructor default of TextReader. -/
def idEncode : Value → Except PyErr Value :=
  fun v => Except.ok v

/-- A mixin: a function from the current output mapping to additional
    entries, possibly raising. -/
abbrev Mixin := Dict → Except PyErr Dict

/-- The composition configuration: an ordered list of readers and an
    ordered list of mixins (the constructor turns a missing mixin list
    into the empty list, modelled here by the list itself). -/
structure ReaderCompose where
  readers : List Reader
  mixins : List Mixin

/-- The first loop of ReaderCompose.call: run each reader on the row and
    merge its result into the accumulator, aborting on the first error. -/
def runReaders (env : Env) (row : Dict) : List Reader → Dict → Except PyErr Dict
  | [], acc => Except.ok acc
  | r :: rest, acc =>
      match Reader.call env r row with
      | Except.error e => Except.error e
      | Except.ok out => runReaders env row rest (dictMerge acc out)

/-- The second loop of ReaderCompose.call: run each mixin on the current
    accumulated mapping (not on the row) and merge its result, aborting
    on the first error. -/
def runMixins : List Mixin → Dict → Except PyErr Dict
  | [], acc => Except.ok acc
  | m :: rest, acc =>
      match m acc with
      | Except.error e => Except.error e
      | Except.ok out => runMixins rest (dictMerge acc out)

/-- The call method of ReaderCompose: start from the empty mapping, run
    the readers in order, then the mixins in order. -/
def ReaderCompose.call (env : Env) (rc : ReaderCompose) (row : Dict) :
    Except PyErr Dict :=
  match runReaders env row rc.readers [] with
  | Except.error e => Except.error e
  | Except.ok d => runMixins rc.mixins d

/-- A default environment whose image collaborator always fails; the
    scalar and text examples never consult it. -/
def pureEnv : Env :=
  Env.mk (fun _ _ _ => Except.error (PyErr.external "no image backend"))

/-- An environment whose image collaborator fails with a missing-file
    error, used to exercise error propagation. -/
def failEnv : Env :=
  Env.mk (fun _ _ _ => Except.error (PyErr.external "file not found"))

/-- The uppercasing encode function of the text examples, mapping every
    character of the string to its upper case. -/
def upperEncode : Value → Except PyErr Value
  | Value.str s => Except.ok (Value.str (String.mk (s.data.map Char.toUpper)))
  | _ => Except.error PyErr.typeError

/-- A mixin that always fails, used to exercise error propagation. -/
def badMixin : Mixin :=
  fun _ => Except.error (PyErr.external "mixin failed")

/-- The reader call with the reader configuration and the record threaded
    through as explicit state. Every statement of the three call methods
    only reads the row and the configuration fields and writes local
    variables and a fresh result dict, so the translation of each branch
    returns the configuration and the row it received. -/
def Reader.callFrame (env : Env) : Reader → Dict → (Reader × Dict) × Except PyErr Dict
  | Reader.image rk dk dp gs, row =>
      match dictGet row rk with
      | Except.error e => ((Reader.image rk dk dp gs, row), Except.error e)
      | Except.ok v =>
          match env.read_image (pyStr v) dp gs with
          | Except.error e => ((Reader.image rk dk dp gs, row), Except.error e)
          | Except.ok im => ((Reader.image rk dk dp gs, row), Except.ok [(dk, im)])
  | Reader.scalar rk dk dt dv ohc, row =>
      match scalarValue dt ohc (dictGetD row rk dv) with
      | Except.error e => ((Reader.scalar rk dk dt dv ohc, row), Except.error e)
      | Except.ok s => ((Reader.scalar rk dk dt dv ohc, row), Except.ok [(dk, s)])
  | Reader.text rk dk enc, row =>
      match dictGet row rk with
      | Except.error e => ((Reader.text rk dk enc, row), Except.error e)
      | Except.ok t =>
          match enc t with
          | Except.error e => ((Reader.text rk dk enc, row), Except.error e)
          | Except.ok t2 => ((Reader.text rk dk enc, row), Except.ok [(dk, t2)])

end CatalystReader

deriving instance DecidableEq for Except

namespace CatalystReader

/-! Helper lemmas shared by the claim theorems. -/

/-- Lookup after a dict write: the written key now maps to the new value,
    every other key is untouched. -/
theorem dictGet?_dictSet (d : Dict) (k : String) (v : Value) (k2 : String) :
    dictGet? (dictSet d k v) k2 = if k2 = k then some v else dictGet? d k2 := by
  induction d with
  | nil =>
      by_cases h : k2 = k
      · simp [dictSet, dictGet?, h]
      · have h2 : ¬ k = k2 := fun hh => h hh.symm
        simp [dictSet, dictGet?, h, h2]
  | cons p rest ih =>
      obtain ⟨k1, v1⟩ := p
      by_cases h1 : k1 = k
      · subst h1
        by_cases h2 : k2 = k1 <;> simp [dictSet, dictGet?, h2, eq_comm]
      · by_cases h2 : k1 = k2
        · have h3 : ¬ k2 = k := fun hh => h1 (h2.trans hh)
          simp [dictSet, dictGet?, h1, h2, h3]
        · simp [dictSet, dictGet?, h1, h2, ih]

/-- The numeric cast never raises a KeyError. -/
theorem coerce_not_keyError (dt : DType) (v : Value) (k : String) :
    coerce dt v ≠ Except.error (PyErr.keyError k) := by
  cases dt <;> cases v <;> simp only [coerce] <;> (try split) <;> simp

/-- The numpy index write never raises a KeyError. -/
theorem npSetIndex_not_keyError (n : Nat) (v : Value) (k : String) :
    npSetIndex n v ≠ Except.error (PyErr.keyError k) := by
  cases v <;> simp only [npSetIndex] <;> (try split) <;> (try split) <;> simp

/-- The scalar computation never raises a KeyError: its only possible
    errors come from the cast and the index write. -/
theorem scalarValue_not_keyError (dt : DType) (ohc : Option Nat) (v : Value)
    (k : String) : scalarValue dt ohc v ≠ Except.error (PyErr.keyError k) := by
  intro hcontra
  cases h : coerce dt v with
  | error e =>
      have h2 : e = PyErr.keyError k := by
        simpa [scalarValue, h] using hcontra
      exact coerce_not_keyError dt v k (by rw [h, h2])
  | ok s =>
      cases ohc with
      | none =>
          simp [scalarValue, h] at hcontra
      | some n =>
          simp only [scalarValue, h] at hcontra
          split at hcontra
          · cases h2 : npSetIndex n s with
            | error e =>
                simp only [h2, Except.error.injEq] at hcontra
                exact npSetIndex_not_keyError n s k (by rw [h2, hcontra])
            | ok oh =>
                simp [h2] at hcontra
          · cases hcontra

/-- When the key is absent, the lookup with default yields the default. -/
theorem dictGetD_of_absent (row : Dict) (rk : String) (dv : Value)
    (h : dictGet? row rk = Option.none) : dictGetD row rk dv = dv := by
  simp [dictGetD, h]

/-- When the key is present, the lookup with default yields the stored
    value, even when that stored value is None. -/
theorem dictGetD_of_present (row : Dict) (rk : String) (dv v : Value)
    (h : dictGet? row rk = some v) : dictGetD row rk dv = v := by
  simp [dictGetD, h]

/-- C1. ReaderCompose starts from the empty mapping, merges the output of
    every reader in list order with last-write-wins on key collisions, and
    then applies every mixin in list order to the current merged mapping
    (not to the record), merging the result the same way; in particular,
    two scalar readers writing the same output key on the record with a
    mapped to 1 and b mapped to 2 give the single entry out mapped to 2. -/
theorem c1_compose_pipeline :
    (∀ (a : Dict) (k1 : String) (v : Value) (k : String),
        dictGet? (dictMerge a [(k1, v)]) k
          = if k = k1 then some v else dictGet? a k)
    ∧ (∀ (env : Env) (rs : List Reader) (ms : List Mixin) (row : Dict),
        ReaderCompose.call env (ReaderCompose.mk rs ms) row =
          match runReaders env row rs [] with
          | Except.error e => Except.error e
          | Except.ok d => runMixins ms d)
    ∧ (∀ (env : Env) (row : Dict) (r : Reader) (rest : List Reader) (acc : Dict),
        runReaders env row (r :: rest) acc =
          match Reader.call env r row with
          | Except.error e => Except.error e
          | Except.ok out => runReaders env row rest (dictMerge acc out))
    ∧ (∀ (m : Mixin) (rest : List Mixin) (acc : Dict),
        runMixins (m :: rest) acc =
          match m acc with
          | Except.error e => Except.error e
          | Except.ok out => runMixins rest (dictMerge acc out))
    ∧ ReaderCompose.call pureEnv
        (ReaderCompose.mk
          [Reader.scalar "a" "out" DType.float32 Value.none Option.none,
           Reader.scalar "b" "out" DType.float32 Value.none Option.none] [])
        [("a", Value.int 1), ("b", Value.int 2)]
      = Except.ok [("out", Value.float 2)] := by
  refine ⟨?_, ?_, ?_, ?_, ?_⟩
  · intro a k1 v k
    exact dictGet?_dictSet a k1 v k
  · intro env rs ms row
    rfl
  · intro env row r rest acc
    rfl
  · intro m rest acc
    rfl
  · decide

/-- C2 counterexample: with the default numpy float32 dtype the record
    value 3 coerces to the defined scalar 3.0, which is nonnegative and
    below the class count 5, yet the call raises IndexError instead of
    producing the one-hot vector, because numpy (from version 1.12 on)
    rejects float scalars as array indices; the claim predicts the
    one-hot output at this input. -/
theorem c2_float_index_counterexample :
    Reader.call pureEnv
        (Reader.scalar "x" "y" DType.float32 Value.none (some 5))
        [("x", Value.int 3)]
      = Except.error PyErr.indexError
    ∧ Reader.call pureEnv
        (Reader.scalar "x" "y" DType.float32 Value.none (some 5))
        [("x", Value.int 3)]
      ≠ Except.ok [("y", Value.vec (oneHot 5 3))] :=
  ⟨by decide, by decide⟩

/-- C2 (amended): for a ScalarReader whose dtype is the integer type, when
    the looked-up value coerces to an integer scalar that is nonnegative
    and below the configured class count, the output value is the zero
    float vector of that length with the scalar index set to one,
    replacing the raw scalar; with a float dtype the numpy index write
    rejects the scalar instead. -/
theorem c2_one_hot_int_dtype (env : Env) (rk dk : String) (dv : Value)
    (n : Nat) (row : Dict) (i : Int)
    (hc : coerce DType.int (dictGetD row rk dv) = Except.ok (Value.int i))
    (h0 : 0 ≤ i) (hn : i < (n : Int)) :
    Reader.call env (Reader.scalar rk dk DType.int dv (some n)) row
      = Except.ok [(dk, Value.vec (oneHot n i.toNat))] := by
  simp [Reader.call, scalarValue, hc, isNotNone, pyGE0, npSetIndex, h0, hn]

/-- C2 witness: the spec example with integer dtype, the record mapping x
    to 3, and five classes produces the one-hot vector with index 3 set. -/
theorem c2_one_hot_int_dtype_witness :
    Reader.call pureEnv (Reader.scalar "x" "y" DType.int Value.none (some 5))
        [("x", Value.int 3)]
      = Except.ok [("y", Value.vec (oneHot 5 3))]
    ∧ oneHot 5 3 = [0, 0, 0, 1, 0] := by
  refine ⟨?_, by decide⟩
  exact c2_one_hot_int_dtype pureEnv "x" "y" Value.none 5 [("x", Value.int 3)] 3
    (by decide) (by decide) (by decide)

/-- C3. A ScalarReader never raises the missing-field KeyError: when the
    source field is absent the configured default value is substituted and
    fed to the numeric cast; in particular the empty record with default
    2.0 and float dtype yields the output 2.0. -/
theorem c3_scalar_default_substitution :
    (∀ (env : Env) (rk dk : String) (dt : DType) (dv : Value)
        (ohc : Option Nat) (row : Dict) (k : String),
        Reader.call env (Reader.scalar rk dk dt dv ohc) row
          ≠ Except.error (PyErr.keyError k))
    ∧ (∀ (env : Env) (rk dk : String) (dt : DType) (dv : Value)
        (ohc : Option Nat) (row : Dict),
        dictGet? row rk = Option.none →
        Reader.call env (Reader.scalar rk dk dt dv ohc) row
          = Except.map (fun s => [(dk, s)]) (scalarValue dt ohc dv))
    ∧ Reader.call pureEnv
        (Reader.scalar "x" "y" DType.float (Value.float 2) Option.none) []
      = Except.ok [("y", Value.float 2)] := by
  refine ⟨?_, ?_, by decide⟩
  · intro env rk dk dt dv ohc row k hcontra
    have h := scalarValue_not_keyError dt ohc (dictGetD row rk dv) k
    cases hs : scalarValue dt ohc (dictGetD row rk dv) with
    | error e =>
        simp only [Reader.call, hs] at hcontra
        injection hcontra with h2
        exact h (by rw [hs, h2])
    | ok s =>
        simp [Reader.call, hs] at hcontra
  · intro env rk dk dt dv ohc row habs
    simp only [Reader.call, dictGetD_of_absent row rk dv habs]
    cases scalarValue dt ohc dv with
    | error e => rfl
    | ok s => rfl

/-- C3 witness: a record without the source field is served through the
    default value, and no missing-field error can surface. -/
theorem c3_scalar_default_substitution_witness :
    Reader.call pureEnv
        (Reader.scalar "x" "y" DType.float (Value.float 2) Option.none)
        [("z", Value.int 0)]
      ≠ Except.error (PyErr.keyError "x")
    ∧ Reader.call pureEnv
        (Reader.scalar "x" "y" DType.float (Value.float 2) Option.none)
        [("z", Value.int 0)]
      = Except.map (fun s => [("y", s)])
          (scalarValue DType.float Option.none (Value.float 2)) :=
  ⟨c3_scalar_default_substitution.1 pureEnv "x" "y" DType.float (Value.float 2)
      Option.none [("z", Value.int 0)] "x",
   c3_scalar_default_substitution.2.1 pureEnv "x" "y" DType.float (Value.float 2)
      Option.none [("z", Value.int 0)] (by decide)⟩

/-- C4 counterexample: a ScalarReader with integer dtype, no default and
    no one-hot count crashes with a TypeError on a record missing the
    source field, because int applied to None raises; the claim predicts a
    non-crashing null-valued output mapping for every such reader. -/
theorem c4_int_none_counterexample :
    Reader.call pureEnv
        (Reader.scalar "x" "y" DType.int Value.none Option.none) []
      = Except.error PyErr.typeError
    ∧ Reader.call pureEnv
        (Reader.scalar "x" "y" DType.int Value.none Option.none) []
      ≠ Except.ok [("y", Value.none)] :=
  ⟨by decide, by decide⟩

/-- C4 (amended): on a record missing the source field, a ScalarReader
    without default and without one-hot count passes None to the dtype
    cast: with the default numpy float32 dtype the output value is the
    undefined NaN scalar and the call does not crash, while with the
    Python int or float dtypes the cast itself fails with the
    type-conversion error (never with a missing-field error). -/
theorem c4_missing_field_no_default :
    (∀ (env : Env) (rk dk : String) (row : Dict),
        dictGet? row rk = Option.none →
        Reader.call env
            (Reader.scalar rk dk DType.float32 Value.none Option.none) row
          = Except.ok [(dk, Value.nan)])
    ∧ (∀ (env : Env) (rk dk : String) (row : Dict),
        dictGet? row rk = Option.none →
        Reader.call env
            (Reader.scalar rk dk DType.int Value.none Option.none) row
          = Except.error PyErr.typeError)
    ∧ (∀ (env : Env) (rk dk : String) (row : Dict),
        dictGet? row rk = Option.none →
        Reader.call env
            (Reader.scalar rk dk DType.float Value.none Option.none) row
          = Except.error PyErr.typeError) := by
  refine ⟨?_, ?_, ?_⟩ <;>
    (intro env rk dk row habs;
     simp [Reader.call, dictGetD_of_absent row rk Value.none habs,
           scalarValue, coerce])

/-- C4 witness: on the empty record, float32 yields the NaN output and
    the integer dtype raises the type-conversion error. -/
theorem c4_missing_field_no_default_witness :
    Reader.call pureEnv
        (Reader.scalar "x" "y" DType.float32 Value.none Option.none) []
      = Except.ok [("y", Value.nan)]
    ∧ Reader.call pureEnv
        (Reader.scalar "x" "y" DType.float Value.none Option.none) []
      = Except.error PyErr.typeError :=
  ⟨c4_missing_field_no_default.1 pureEnv "x" "y" [] (by decide),
   c4_missing_field_no_default.2.2 pureEnv "x" "y" [] (by decide)⟩

/-- C5. With a one-hot class count configured, a negative coerced scalar
    bypasses the one-hot encoding: the raw coerced scalar is the output
    value and no error is raised; in particular the record mapping x to
    minus one with five classes yields the output minus one. -/
theorem c5_negative_bypasses_one_hot :
    (∀ (env : Env) (rk dk : String) (dt : DType) (dv : Value) (n : Nat)
        (row : Dict) (i : Int),
        coerce dt (dictGetD row rk dv) = Except.ok (Value.int i) → i < 0 →
        Reader.call env (Reader.scalar rk dk dt dv (some n)) row
          = Except.ok [(dk, Value.int i)])
    ∧ (∀ (env : Env) (rk dk : String) (dt : DType) (dv : Value) (n : Nat)
        (row : Dict) (q : ℚ),
        coerce dt (dictGetD row rk dv) = Except.ok (Value.float q) → q < 0 →
        Reader.call env (Reader.scalar rk dk dt dv (some n)) row
          = Except.ok [(dk, Value.float q)])
    ∧ Reader.call pureEnv
        (Reader.scalar "x" "y" DType.float32 Value.none (some 5))
        [("x", Value.int (-1))]
      = Except.ok [("y", Value.float (-1))] := by
  refine ⟨?_, ?_, by decide⟩
  · intro env rk dk dt dv n row i hc hneg
    simp [Reader.call, scalarValue, hc, isNotNone, pyGE0, not_le.mpr hneg]
  · intro env rk dk dt dv n row q hc hneg
    simp [Reader.call, scalarValue, hc, isNotNone, pyGE0, not_le.mpr hneg]

/-- C5 witness: the spec example, the record mapping x to minus one with
    five classes and the default float32 dtype. -/
theorem c5_negative_bypasses_one_hot_witness :
    Reader.call pureEnv
        (Reader.scalar "x" "y" DType.float32 Value.none (some 5))
        [("x", Value.int (-1))]
      = Except.ok [("y", Value.float (-1))] :=
  c5_negative_bypasses_one_hot.2.1 pureEnv "x" "y" DType.float32 Value.none 5
    [("x", Value.int (-1))] (-1) (by decide) (by decide)

/-- C6. With a one-hot class count configured, a coerced scalar at or
    above the class count makes the invocation fail with the IndexError
    condition of the numpy index write: for an integer scalar the index is
    out of bounds, and for a float scalar the index write rejects the
    scalar; no value is silently produced. -/
theorem c6_one_hot_out_of_range :
    (∀ (env : Env) (rk dk : String) (dt : DType) (dv : Value) (n : Nat)
        (row : Dict) (i : Int),
        coerce dt (dictGetD row rk dv) = Except.ok (Value.int i) →
        (n : Int) ≤ i →
        Reader.call env (Reader.scalar rk dk dt dv (some n)) row
          = Except.error PyErr.indexError)
    ∧ (∀ (env : Env) (rk dk : String) (dt : DType) (dv : Value) (n : Nat)
        (row : Dict) (q : ℚ),
        coerce dt (dictGetD row rk dv) = Except.ok (Value.float q) →
        (n : ℚ) ≤ q →
        Reader.call env (Reader.scalar rk dk dt dv (some n)) row
          = Except.error PyErr.indexError) := by
  refine ⟨?_, ?_⟩
  · intro env rk dk dt dv n row i hc hge
    have h0 : (0 : Int) ≤ i := le_trans (Int.natCast_nonneg n) hge
    have hnl : ¬ i < (n : Int) := not_lt.mpr hge
    simp [Reader.call, scalarValue, hc, isNotNone, pyGE0, npSetIndex, h0, hnl]
  · intro env rk dk dt dv n row q hc hge
    have h0 : (0 : ℚ) ≤ q := le_trans (Nat.cast_nonneg n) hge
    simp [Reader.call, scalarValue, hc, isNotNone, pyGE0, npSetIndex, h0]

/-- C6 witness: integer dtype, the record mapping x to 7 and five
    classes raise the index error. -/
theorem c6_one_hot_out_of_range_witness :
    Reader.call pureEnv
        (Reader.scalar "x" "y" DType.int Value.none (some 5))
        [("x", Value.int 7)]
      = Except.error PyErr.indexError :=
  c6_one_hot_out_of_range.1 pureEnv "x" "y" DType.int Value.none 5
    [("x", Value.int 7)] 7 (by decide) (by decide)

/-- C7. A TextReader on a record containing the source field returns the
    encode function applied to the stored value under the output field,
    with the identity function as default encode; on a record lacking the
    source field it raises the missing-field KeyError with no default
    substitution; in particular the record mapping t to hello with an
    uppercasing encode yields HELLO, and the empty record raises. -/
theorem c7_text_reader :
    (∀ (env : Env) (rk dk : String) (enc : Value → Except PyErr Value)
        (row : Dict) (v : Value),
        dictGet? row rk = some v →
        Reader.call env (Reader.text rk dk enc) row
          = match enc v with
            | Except.error e => Except.error e
            | Except.ok t2 => Except.ok [(dk, t2)])
    ∧ (∀ (env : Env) (rk dk : String) (row : Dict) (v : Value),
        dictGet? row rk = some v →
        Reader.call env (Reader.text rk dk idEncode) row
          = Except.ok [(dk, v)])
    ∧ (∀ (env : Env) (rk dk : String) (enc : Value → Except PyErr Value)
        (row : Dict),
        dictGet? row rk = Option.none →
        Reader.call env (Reader.text rk dk enc) row
          = Except.error (PyErr.keyError rk))
    ∧ Reader.call pureEnv (Reader.text "t" "enc" upperEncode)
        [("t", Value.str "hello")]
      = Except.ok [("enc", Value.str "HELLO")]
    ∧ Reader.call pureEnv (Reader.text "t" "enc" upperEncode) []
      = Except.error (PyErr.keyError "t") := by
  refine ⟨?_, ?_, ?_, by decide, by decide⟩
  · intro env rk dk enc row v hp
    cases he : enc v with
    | error e => simp [Reader.call, dictGet, hp, he]
    | ok t2 => simp [Reader.call, dictGet, hp, he]
  · intro env rk dk row v hp
    simp [Reader.call, dictGet, hp, idEncode]
  · intro env rk dk enc row habs
    simp [Reader.call, dictGet, habs]

/-- C7 witness: the presence case with the uppercasing encode, the
    identity default, and the absence case. -/
theorem c7_text_reader_witness :
    Reader.call pureEnv (Reader.text "t" "enc" upperEncode)
        [("t", Value.str "hi")]
      = Except.ok [("enc", Value.str "HI")]
    ∧ Reader.call pureEnv (Reader.text "t" "enc" idEncode)
        [("t", Value.str "hi")]
      = Except.ok [("enc", Value.str "hi")]
    ∧ Reader.call pureEnv (Reader.text "t" "enc" upperEncode)
        [("u", Value.int 0)]
      = Except.error (PyErr.keyError "t") :=
  ⟨(c7_text_reader.1 pureEnv "t" "enc" upperEncode [("t", Value.str "hi")]
      (Value.str "hi") (by decide)).trans (by decide),
   c7_text_reader.2.1 pureEnv "t" "enc" [("t", Value.str "hi")]
      (Value.str "hi") (by decide),
   c7_text_reader.2.2.1 pureEnv "t" "enc" upperEncode [("u", Value.int 0)]
      (by decide)⟩

/-- C8. The pipeline does not catch or wrap any leaf error: the first
    error of a reader aborts the remaining readers and the mixins, the
    first error of a mixin aborts the remaining mixins, a failure of the
    image decode collaborator surfaces as the error of the ImageReader,
    and an error result carries no partial output mapping. -/
theorem c8_error_propagation :
    (∀ (env : Env) (row : Dict) (r : Reader) (rest : List Reader)
        (acc : Dict) (e : PyErr),
        Reader.call env r row = Except.error e →
        runReaders env row (r :: rest) acc = Except.error e)
    ∧ (∀ (env : Env) (rs : List Reader) (ms : List Mixin) (row : Dict)
        (e : PyErr),
        runReaders env row rs [] = Except.error e →
        ReaderCompose.call env (ReaderCompose.mk rs ms) row = Except.error e)
    ∧ (∀ (m : Mixin) (rest : List Mixin) (acc : Dict) (e : PyErr),
        m acc = Except.error e →
        runMixins (m :: rest) acc = Except.error e)
    ∧ (∀ (env : Env) (rk dk : String) (dp : Option String) (gs : Bool)
        (row : Dict) (v : Value) (e : PyErr),
        dictGet? row rk = some v →
        env.read_image (pyStr v) dp gs = Except.error e →
        Reader.call env (Reader.image rk dk dp gs) row = Except.error e) := by
  refine ⟨?_, ?_, ?_, ?_⟩
  · intro env row r rest acc e h
    simp [runReaders, h]
  · intro env rs ms row e h
    simp [ReaderCompose.call, h]
  · intro m rest acc e h
    simp [runMixins, h]
  · intro env rk dk dp gs row v e hp he
    simp [Reader.call, dictGet, hp, he]

/-- C8 witness: a failing image collaborator aborts a reader list before
    the second reader, aborts a whole compose call before its mixin, and
    a failing mixin aborts the mixin loop. -/
theorem c8_error_propagation_witness :
    runReaders failEnv [("p", Value.str "a.png")]
        [Reader.image "p" "o" Option.none false,
         Reader.scalar "x" "y" DType.float32 Value.none Option.none] []
      = Except.error (PyErr.external "file not found")
    ∧ ReaderCompose.call failEnv
        (ReaderCompose.mk [Reader.image "p" "o" Option.none false] [badMixin])
        [("p", Value.str "a.png")]
      = Except.error (PyErr.external "file not found")
    ∧ runMixins [badMixin, badMixin] [("o", Value.int 1)]
      = Except.error (PyErr.external "mixin failed")
    ∧ Reader.call failEnv (Reader.image "p" "o" Option.none false)
        [("p", Value.str "a.png")]
      = Except.error (PyErr.external "file not found") :=
  ⟨c8_error_propagation.1 failEnv [("p", Value.str "a.png")]
      (Reader.image "p" "o" Option.none false)
      [Reader.scalar "x" "y" DType.float32 Value.none Option.none] []
      (PyErr.external "file not found") (by decide),
   c8_error_propagation.2.1 failEnv [Reader.image "p" "o" Option.none false]
      [badMixin] [("p", Value.str "a.png")]
      (PyErr.external "file not found") (by decide),
   c8_error_propagation.2.2.1 badMixin [badMixin] [("o", Value.int 1)]
      (PyErr.external "mixin failed") (by decide),
   c8_error_propagation.2.2.2 failEnv "p" "o" Option.none false
      [("p", Value.str "a.png")] (Value.str "a.png")
      (PyErr.external "file not found") (by decide) (by decide)⟩

/-- C9. Applying a field reader leaves the record and the reader
    configuration unchanged: the state-threaded translation of the three
    call methods, whose statements only read the row and the
    configuration, returns both exactly as received together with the
    result of the direct-style call. -/
theorem c9_reader_does_not_mutate (env : Env) (r : Reader) (row : Dict) :
    Reader.callFrame env r row = ((r, row), Reader.call env r row) := by
  cases r with
  | image rk dk dp gs =>
      cases hv : dictGet row rk with
      | error e => simp [Reader.callFrame, Reader.call, hv]
      | ok v =>
          cases hi : env.read_image (pyStr v) dp gs with
          | error e => simp [Reader.callFrame, Reader.call, hv, hi]
          | ok im => simp [Reader.callFrame, Reader.call, hv, hi]
  | scalar rk dk dt dv ohc =>
      cases hs : scalarValue dt ohc (dictGetD row rk dv) with
      | error e => simp [Reader.callFrame, Reader.call, hs]
      | ok s => simp [Reader.callFrame, Reader.call, hs]
  | text rk dk enc =>
      cases hv : dictGet row rk with
      | error e => simp [Reader.callFrame, Reader.call, hv]
      | ok t =>
          cases he : enc t with
          | error e => simp [Reader.callFrame, Reader.call, hv, he]
          | ok t2 => simp [Reader.callFrame, Reader.call, hv, he]

/-- C10 counterexample: with the default numpy float32 dtype and a
    configured default of 7.0, a record storing None under the source
    field makes the call return the NaN output instead of failing with
    the type-conversion error the claim predicts for every dtype. -/
theorem c10_float32_null_counterexample :
    Reader.call pureEnv
        (Reader.scalar "x" "y" DType.float32 (Value.float 7) Option.none)
        [("x", Value.none)]
      = Except.ok [("y", Value.nan)]
    ∧ Reader.call pureEnv
        (Reader.scalar "x" "y" DType.float32 (Value.float 7) Option.none)
        [("x", Value.none)]
      ≠ Except.error PyErr.typeError :=
  ⟨by decide, by decide⟩

/-- C10 (amended): when the record stores None under the source field,
    the configured default is NOT substituted (substitution is triggered
    only by key absence): the stored None is passed to the dtype cast,
    which fails with the type-conversion error for the int and float
    dtypes even though a default is configured, and yields the NaN output
    for the default numpy float32 dtype. -/
theorem c10_present_null_not_defaulted :
    (∀ (row : Dict) (rk : String) (dv : Value),
        dictGet? row rk = some Value.none → dictGetD row rk dv = Value.none)
    ∧ (∀ (env : Env) (rk dk : String) (dv : Value) (ohc : Option Nat)
        (row : Dict),
        dictGet? row rk = some Value.none →
        Reader.call env (Reader.scalar rk dk DType.int dv ohc) row
          = Except.error PyErr.typeError)
    ∧ (∀ (env : Env) (rk dk : String) (dv : Value) (ohc : Option Nat)
        (row : Dict),
        dictGet? row rk = some Value.none →
        Reader.call env (Reader.scalar rk dk DType.float dv ohc) row
          = Except.error PyErr.typeError)
    ∧ (∀ (env : Env) (rk dk : String) (dv : Value) (ohc : Option Nat)
        (row : Dict),
        dictGet? row rk = some Value.none →
        Reader.call env (Reader.scalar rk dk DType.float32 dv ohc) row
          = Except.ok [(dk, Value.nan)]) := by
  refine ⟨?_, ?_, ?_, ?_⟩
  · intro row rk dv hp
    exact dictGetD_of_present row rk dv Value.none hp
  · intro env rk dk dv ohc row hp
    simp [Reader.call, dictGetD_of_present row rk dv Value.none hp,
          scalarValue, coerce]
  · intro env rk dk dv ohc row hp
    simp [Reader.call, dictGetD_of_present row rk dv Value.none hp,
          scalarValue, coerce]
  · intro env rk dk dv ohc row hp
    cases ohc with
    | none =>
        simp [Reader.call, dictGetD_of_present row rk dv Value.none hp,
              scalarValue, coerce]
    | some n =>
        simp [Reader.call, dictGetD_of_present row rk dv Value.none hp,
              scalarValue, coerce, isNotNone, pyGE0]

/-- C10 witness: a record storing None under x with a configured default
    of 7.0: the default is ignored, the int dtype raises the
    type-conversion error and the float32 dtype yields NaN. -/
theorem c10_present_null_not_defaulted_witness :
    dictGetD [("x", Value.none)] "x" (Value.float 7) = Value.none
    ∧ Reader.call pureEnv
        (Reader.scalar "x" "y" DType.int (Value.float 7) Option.none)
        [("x", Value.none)]
      = Except.error PyErr.typeError
    ∧ Reader.call pureEnv
        (Reader.scalar "x" "y" DType.float32 (Value.float 7) Option.none)
        [("x", Value.none)]
      = Except.ok [("y", Value.nan)] :=
  ⟨c10_present_null_not_defaulted.1 [("x", Value.none)] "x" (Value.float 7)
      (by decide),
   c10_present_null_not_defaulted.2.1 pureEnv "x" "y" (Value.float 7)
      Option.none [("x", Value.none)] (by decide),
   c10_present_null_not_defaulted.2.2.2 pureEnv "x" "y" (Value.float 7)
      Option.none [("x", Value.none)] (by decide)⟩

end CatalystReader
